import Mathlib

/-!
Verification of the prompt-assembly and pipeline control flow of
`streamlit_app.py` (zanzara-tigre repository).

The embedding mirrors the source:
* Python string helpers (`str.strip`, `str.replace`, truthiness of strings)
  are modelled with Python's semantics (`pyIsSpace` is CPython's
  `str.isspace` character set, used by `str.strip()` with no arguments).
* The prompt assembler (source lines 206-236) becomes pure string functions.
* The button-press pipeline (source lines 130-251) becomes a function from an
  environment (uploaded file, flags, outcomes of the external OpenAI calls)
  to the list of observable effects (service calls, errors, displayed data),
  in source order.
-/

/-- CPython's `str.isspace` character set: the characters stripped by
Python's `str.strip()` with no arguments. -/
def pyIsSpace (c : Char) : Bool :=
  let n := c.toNat
  (9 ≤ n && n ≤ 13) || (28 ≤ n && n ≤ 32) || n == 0x85 || n == 0xA0 ||
  n == 0x1680 || (0x2000 ≤ n && n ≤ 0x200A) || n == 0x2028 || n == 0x2029 ||
  n == 0x202F || n == 0x205F || n == 0x3000

/-- List-level form of Python `str.strip()`: drop leading and trailing
whitespace characters. -/
def stripChars (l : List Char) : List Char :=
  (((l.dropWhile pyIsSpace).reverse.dropWhile pyIsSpace).reverse)

/-- Python `s.strip()` (no arguments). -/
def pyStrip (s : String) : String := ⟨stripChars s.data⟩

/-- Python `s.replace("\n", " ")`: the pattern is a single character, so the
substring replacement is a character map. -/
def pyReplaceNl (s : String) : String :=
  ⟨s.data.map (fun c => if c = '\n' then ' ' else c)⟩

/-! ## Prompt assembler (source lines 210-236) -/

/-- Source line 215: the string appended to `esempi_block` for one example. -/
def pieceEsempio (e : String) : String :=
  "        <esempio>\n            " ++ e ++ "\n        </esempio>\n"

/-- Source lines 211-217: the loop body of `esempi_block` construction.
Python's `if esempi_texts:` is truthiness, i.e. non-emptiness; the loop of
`+=` is a left fold of string append starting from the part built so far. -/
def esempi_body (esempi_texts : List String) : String :=
  if esempi_texts.isEmpty then "        \n"
  else esempi_texts.foldl (fun acc e => acc ++ pieceEsempio e) ""

/-- Source lines 210-218: `esempi_block`. -/
def esempi_block (esempi_texts : List String) : String :=
  "<esempi>\n" ++ esempi_body esempi_texts ++ "</esempi>"

/-- Source lines 220-224: `additional_instructions_block`; Python's
`if user_additional_instructions.strip():` is non-emptiness of the strip. -/
def additional_instructions_block (user_additional_instructions : String) : String :=
  if (pyStrip user_additional_instructions).isEmpty then ""
  else
    "\n<additional_instructions>\n" ++ pyStrip user_additional_instructions ++
      "\n</additional_instructions>\n"

/-- Source line 227: `trascrizione_raw.replace("\n", " ").strip() if
trascrizione_raw else ""`. -/
def trascrizione_for_gpt_input (trascrizione_raw : String) : String :=
  if trascrizione_raw.isEmpty then ""
  else pyStrip (pyReplaceNl trascrizione_raw)

/-- Source lines 229-236: the f-string building `full_prompt_for_gpt`. -/
def full_prompt_for_gpt (main_prompt_instruction : String)
    (esempi_texts : List String) (user_additional_instructions : String)
    (trascrizione_raw : String) : String :=
  main_prompt_instruction ++ "\n\n" ++ esempi_block esempi_texts ++ "\n" ++
    additional_instructions_block user_additional_instructions ++
    "\n<input>\n    " ++ trascrizione_for_gpt_input trascrizione_raw ++
    "\n</input>\n"

/-! ## Substring occurrence counting

`occs p s` counts the positions (including the position at the very end)
where the pattern `p` occurs as a contiguous sublist of `s`. -/

def occs (p : List Char) : List Char → Nat
  | [] => if List.isPrefixOf p ([] : List Char) then 1 else 0
  | c :: s => (if List.isPrefixOf p (c :: s) then 1 else 0) + occs p s

/-- Number of occurrences of the string `p` as a substring of `s`. -/
def countOccs (p s : String) : Nat := occs p.data s.data

/-! ## Pipeline model (source lines 130-251)

The pipeline runs once per button press.  External interactions (the two
OpenAI calls, the template and example files) are modelled by an
environment recording their outcomes; the run produces the list of
observable effects in source order. -/

/-- The uploaded media file: name and size in bytes (source lines 150-154). -/
structure MediaBlob where
  name : String
  size : Nat
deriving DecidableEq

/-- Outcome of the `client.audio.transcriptions.create` call (source lines
163-178).  The handler at line 171 catches `openai.APIError`, which covers
the vendor's connection, rate-limit and status errors; the handler at line
175 catches every other exception. -/
inductive TrOutcome where
  | ok (text : String)
  | apiError (msg : String)
  | otherError (msg : String)
deriving DecidableEq

/-- One element of `response.choices` with its `message.content`. -/
structure Choice where
  content : String
deriving DecidableEq

/-- Outcome of the `client.chat.completions.create` call inside
`gpt_request` (source lines 110-128), one constructor per handler. -/
inductive GptOutcome where
  | ok (choices : List Choice)
  | connectionError (msg : String)
  | rateLimitError (msg : String)
  | statusError (status_code : Nat) (msg : String)
  | otherError (msg : String)
deriving DecidableEq

/-- Outcome of opening `prompt.txt` in `load_main_prompt` (source lines
16-27): found with raw contents, `FileNotFoundError`, or another read
error. -/
inductive TemplateRead where
  | found (contents : String)
  | notFound
  | readError (msg : String)
deriving DecidableEq

/-- The environment of one button-press invocation: the widget state and the
outcomes the external world would give to each call the script can make. -/
structure Env where
  uploadedFile : Option MediaBlob
  transcribeOnly : Bool
  userInstructions : String
  templateFile : TemplateRead
  esempiFiles : List (Option String)
  transcription : TrOutcome
  gpt : GptOutcome

/-- Observable effects of a run, in source order.  `callTranscription` and
`callGpt` mark the outbound OpenAI requests; `buildPrompt` marks the
assignment of `full_prompt_for_gpt` (source line 229) and records the
template used. -/
inductive Effect where
  | showSizeError (size : Nat)
  | showFileDetails (name : String) (size : Nat)
  | callTranscription
  | showError (msg : String)
  | showWarning (msg : String)
  | showTranscript (text : String)
  | showSuccess (msg : String)
  | buildPrompt (template : String) (prompt : String)
  | callGpt (prompt : String)
  | showResult (text : String)
deriving DecidableEq

/-! Error and status messages (the size-error message of source lines
144-147 interpolates the size with Python float formatting, so that effect
carries the raw byte count instead of a rendered string). -/

def trApiErrorMsg (m : String) : String :=
  "Errore API OpenAI durante la trascrizione con whisper-1: " ++ m

def trGenericErrorMsg (m : String) : String :=
  "Errore generico durante la trascrizione con whisper-1: " ++ m

def emptyTranscriptMsg : String := "La trascrizione è risultata vuota."

def skipAnalysisMsg : String :=
  "✔️ Trascrizione con whisper-1 completata. L'analisi gpt-4o è stata saltata come richiesto."

def emptyTranscriptAnalysisMsg : String :=
  "La trascrizione è risultata vuota. L'analisi gpt-4o procederà con un input testuale vuoto. " ++
  "Il risultato potrebbe non essere significativo a meno che il prompt o le istruzioni aggiuntive non gestiscano questo caso."

def promptNotFoundMsg : String :=
  "Errore: Il file 'prompt.txt' non è stato trovato nella directory principale."

def promptReadErrorMsg (m : String) : String :=
  "Errore durante la lettura di 'prompt.txt': " ++ m

def connectionErrorMsg (m : String) : String :=
  "Errore di connessione API OpenAI: " ++ m

def rateLimitErrorMsg (m : String) : String :=
  "Rate limit superato per l'API OpenAI: " ++ m

def statusErrorMsg (status_code : Nat) (m : String) : String :=
  "Errore API OpenAI: Status " ++ toString status_code ++ " - " ++ m

def unknownErrorMsg (m : String) : String :=
  "Un errore inaspettato è occorso durante la richiesta a gpt-4o: " ++ m

def emptyResponseMsg : String :=
  "Non è stato possibile ottenere una risposta valida da gpt-4o o la risposta era vuota."

/-- Source line 142: `MAX_BYTES = 25 * 1024 * 1024`. -/
def MAX_BYTES : Nat := 25 * 1024 * 1024

/-- Source lines 29-53, `load_esempi`: each of the example files that opens
successfully contributes `f.read().strip()`, missing or unreadable files
are skipped (the warnings it emits are UI-only and carry no data used
later). -/
def load_esempi (files : List (Option String)) : List String :=
  files.filterMap (fun contents => contents.map pyStrip)

/-- Source lines 16-27, `load_main_prompt`: returns `f.read().strip()`, or
shows an error and stops the script (modelled as `none`). -/
def load_main_prompt : TemplateRead → List Effect × Option String
  | TemplateRead.found contents => ([], some (pyStrip contents))
  | TemplateRead.notFound => ([Effect.showError promptNotFoundMsg], none)
  | TemplateRead.readError m => ([Effect.showError (promptReadErrorMsg m)], none)

/-- Source lines 110-128, `gpt_request`: on success returns the response;
each handler shows its classified error and the function returns `None`. -/
def gpt_request : GptOutcome → List Effect × Option (List Choice)
  | GptOutcome.ok choices => ([], some choices)
  | GptOutcome.connectionError m => ([Effect.showError (connectionErrorMsg m)], none)
  | GptOutcome.rateLimitError m => ([Effect.showError (rateLimitErrorMsg m)], none)
  | GptOutcome.statusError code m => ([Effect.showError (statusErrorMsg code m)], none)
  | GptOutcome.otherError m => ([Effect.showError (unknownErrorMsg m)], none)

/-- Source lines 240-251: call `gpt_request` and render the result.  The
guard `if gpt_response_obj and gpt_response_obj.choices:` requires a
non-`None` response with a non-empty choices list; otherwise the generic
"no valid response or it was empty" error is shown. -/
def gptPhase (g : GptOutcome) : List Effect :=
  (gpt_request g).1 ++
    match (gpt_request g).2 with
    | some (c :: _) => [Effect.showResult (pyStrip c.content)]
    | some [] => [Effect.showError emptyResponseMsg]
    | none => [Effect.showError emptyResponseMsg]

/-- Source lines 198-251: the analysis branch taken when the
transcription-only checkbox is off.  `tr` is the (stripped) transcript. -/
def analysisPhase (env : Env) (tr : String) : List Effect :=
  (if tr.isEmpty then [Effect.showWarning emptyTranscriptAnalysisMsg] else []) ++
    (load_main_prompt env.templateFile).1 ++
    match (load_main_prompt env.templateFile).2 with
    | none => []
    | some tmpl =>
      let esempi := load_esempi env.esempiFiles
      let prompt := full_prompt_for_gpt tmpl esempi env.userInstructions tr
      [Effect.buildPrompt tmpl prompt, Effect.callGpt prompt] ++ gptPhase env.gpt

/-- Source lines 156-251: everything after the size check passes. -/
def afterSizeCheck (env : Env) (f : MediaBlob) : List Effect :=
  [Effect.showFileDetails f.name f.size, Effect.callTranscription] ++
    match env.transcription with
    | TrOutcome.apiError m => [Effect.showError (trApiErrorMsg m)]
    | TrOutcome.otherError m => [Effect.showError (trGenericErrorMsg m)]
    | TrOutcome.ok raw =>
      let tr := pyStrip raw
      (if tr.isEmpty then [Effect.showWarning emptyTranscriptMsg]
       else [Effect.showTranscript tr]) ++
        if env.transcribeOnly then
          if tr.isEmpty then [] else [Effect.showSuccess skipAnalysisMsg]
        else analysisPhase env tr

/-- Source lines 130-148 and onward: one button-press invocation.  With no
uploaded file the processing block is not reached; an oversized file is
rejected by the pre-flight size check, which stops the script. -/
def runPipeline (env : Env) : List Effect :=
  match env.uploadedFile with
  | none => []
  | some f =>
    if MAX_BYTES < f.size then [Effect.showSizeError f.size]
    else afterSizeCheck env f

/-! ## Trace predicates -/

def isCallTranscription : Effect → Bool
  | Effect.callTranscription => true
  | _ => false

def isCallGpt : Effect → Bool
  | Effect.callGpt _ => true
  | _ => false

def isBuildPrompt : Effect → Bool
  | Effect.buildPrompt _ _ => true
  | _ => false

def isShowSizeError : Effect → Bool
  | Effect.showSizeError _ => true
  | _ => false

def isShowResult : Effect → Bool
  | Effect.showResult _ => true
  | _ => false

/-- Was the transcription service called during the run? -/
def callsTranscription (env : Env) : Bool :=
  (runPipeline env).any isCallTranscription

/-- Was the chat-completion (analysis) service called during the run? -/
def callsGpt (env : Env) : Bool :=
  (runPipeline env).any isCallGpt

/-- Was a full prompt assembled during the run? -/
def buildsPrompt (env : Env) : Bool :=
  (runPipeline env).any isBuildPrompt

/-- Was the size-limit error shown during the run? -/
def showsSizeError (env : Env) : Bool :=
  (runPipeline env).any isShowSizeError

/-- Was an analysis result rendered during the run? -/
def showsResult (env : Env) : Bool :=
  (runPipeline env).any isShowResult

/-- The error effect the transcription handlers produce for a failing
outcome (source lines 171-178). -/
def trErrorEffect : TrOutcome → Option Effect
  | TrOutcome.ok _ => none
  | TrOutcome.apiError m => some (Effect.showError (trApiErrorMsg m))
  | TrOutcome.otherError m => some (Effect.showError (trGenericErrorMsg m))

/-- Does every `buildPrompt` effect in the trace use the template produced
by a successful `load_main_prompt`? -/
def promptsUseLoadedTemplate (env : Env) : Bool :=
  (runPipeline env).all fun e =>
    match e with
    | Effect.buildPrompt t _ =>
      match (load_main_prompt env.templateFile).2 with
      | some tmpl => t == tmpl
      | none => false
    | _ => true

/-! ## Lemmas about the Python string helpers -/

theorem head?_dropWhile_false {α : Type} (p : α → Bool) (l : List α) (c : α)
    (h : (l.dropWhile p).head? = some c) : p c = false := by
  have hm := List.head?_dropWhile_not p l
  rw [h] at hm
  exact hm

theorem getLast?_dropWhile_eq {α : Type} (p : α → Bool) (m : List α) (c : α)
    (h : (m.dropWhile p).getLast? = some c) : m.getLast? = some c := by
  induction m with
  | nil => simp at h
  | cons a t ih =>
    rw [List.dropWhile_cons] at h
    by_cases hp : p a = true
    · rw [if_pos hp] at h
      have ht := ih h
      cases t with
      | nil => simp at ht
      | cons b t' => rw [List.getLast?_cons_cons]; exact ht
    · rw [if_neg hp] at h
      exact h

theorem mem_stripChars (l : List Char) (c : Char) (h : c ∈ stripChars l) :
    c ∈ l := by
  unfold stripChars at h
  rw [List.mem_reverse] at h
  have h2 := List.dropWhile_subset pyIsSpace h
  rw [List.mem_reverse] at h2
  exact List.dropWhile_subset pyIsSpace h2

theorem stripChars_head (l : List Char) (c : Char)
    (h : (stripChars l).head? = some c) : pyIsSpace c = false := by
  unfold stripChars at h
  rw [List.head?_reverse] at h
  have h2 := getLast?_dropWhile_eq pyIsSpace _ _ h
  rw [List.getLast?_eq_head?_reverse, List.reverse_reverse] at h2
  exact head?_dropWhile_false pyIsSpace _ _ h2

theorem stripChars_getLast (l : List Char) (c : Char)
    (h : (stripChars l).getLast? = some c) : pyIsSpace c = false := by
  unfold stripChars at h
  rw [List.getLast?_eq_head?_reverse, List.reverse_reverse] at h
  exact head?_dropWhile_false pyIsSpace _ _ h

theorem pyReplaceNl_no_newline (s : String) : '\n' ∉ (pyReplaceNl s).data := by
  intro h
  unfold pyReplaceNl at h
  rw [List.mem_map] at h
  obtain ⟨a, _, ha⟩ := h
  by_cases hn : a = '\n'
  · rw [if_pos hn] at ha
    exact absurd ha (by decide)
  · rw [if_neg hn] at ha
    exact hn ha

theorem trascrizione_no_newline (raw : String) :
    '\n' ∉ (trascrizione_for_gpt_input raw).data := by
  unfold trascrizione_for_gpt_input
  by_cases he : raw.isEmpty
  · rw [if_pos he]; intro h; exact absurd h (by decide)
  · rw [if_neg he]
    intro h
    exact pyReplaceNl_no_newline raw (mem_stripChars _ _ h)

/-! ## Message distinctness helpers -/

theorem head?_data_append (a b : String) (c : Char)
    (h : a.data.head? = some c) : (a ++ b).data.head? = some c := by
  rw [String.data_append]
  cases ha : a.data with
  | nil => rw [ha] at h; exact absurd h (by simp)
  | cons hd tl => rw [ha] at h; simp at h; simp [h]

theorem connectionErrorMsg_ne (m : String) :
    connectionErrorMsg m ≠ emptyResponseMsg := by
  intro h
  have h1 : (connectionErrorMsg m).data.head? = some 'E' :=
    head?_data_append _ _ _ (by decide)
  rw [h] at h1
  exact absurd h1 (by decide)

theorem rateLimitErrorMsg_ne (m : String) :
    rateLimitErrorMsg m ≠ emptyResponseMsg := by
  intro h
  have h1 : (rateLimitErrorMsg m).data.head? = some 'R' :=
    head?_data_append _ _ _ (by decide)
  rw [h] at h1
  exact absurd h1 (by decide)

theorem statusErrorMsg_ne (code : Nat) (m : String) :
    statusErrorMsg code m ≠ emptyResponseMsg := by
  intro h
  have h1 : (statusErrorMsg code m).data.head? = some 'E' := by
    unfold statusErrorMsg
    exact head?_data_append _ _ _
      (head?_data_append _ _ _ (head?_data_append _ _ _ (by decide)))
  rw [h] at h1
  exact absurd h1 (by decide)

theorem unknownErrorMsg_ne (m : String) :
    unknownErrorMsg m ≠ emptyResponseMsg := by
  intro h
  have h1 : (unknownErrorMsg m).data.head? = some 'U' :=
    head?_data_append _ _ _ (by decide)
  rw [h] at h1
  exact absurd h1 (by decide)

/-! ## Trace-shape helper lemmas -/

theorem afterSizeCheck_no_sizeError (env : Env) (f : MediaBlob) :
    (afterSizeCheck env f).any isShowSizeError = false := by
  unfold afterSizeCheck analysisPhase gptPhase gpt_request load_main_prompt
  repeat' split
  all_goals simp only [isShowSizeError, List.any_append, List.any_cons,
    List.any_nil, Bool.or_false, Bool.false_or]
  all_goals (repeat' split)
  all_goals rfl

theorem afterSizeCheck_calls_transcription (env : Env) (f : MediaBlob) :
    (afterSizeCheck env f).any isCallTranscription = true := by
  unfold afterSizeCheck
  simp [isCallTranscription, List.any_append]

/-! ## Claim C4 -/

/-- C4: every uploaded media blob whose size exceeds `MAX_BYTES` (25 MB) is
rejected with the size error and the run stops before the transcription
service is called. -/
theorem C4_oversized_upload_rejected (env : Env) (f : MediaBlob)
    (h1 : env.uploadedFile = some f) (h2 : MAX_BYTES < f.size) :
    runPipeline env = [Effect.showSizeError f.size] ∧
    callsTranscription env = false := by
  have hr : runPipeline env = [Effect.showSizeError f.size] := by
    unfold runPipeline; rw [h1]; exact if_pos h2
  refine ⟨hr, ?_⟩
  unfold callsTranscription
  rw [hr]; rfl

def envC4 : Env :=
  { uploadedFile := some ⟨"a.mp3", 26214401⟩, transcribeOnly := false,
    userInstructions := "", templateFile := TemplateRead.found "T",
    esempiFiles := [], transcription := TrOutcome.ok "x",
    gpt := GptOutcome.ok [] }

theorem C4_witness :
    runPipeline envC4 = [Effect.showSizeError 26214401] ∧
    callsTranscription envC4 = false :=
  C4_oversized_upload_rejected envC4 ⟨"a.mp3", 26214401⟩ rfl (by decide)

/-! ## Claim C10 -/

/-- C10: the 25 MB limit is 25 * 1024 * 1024 = 26214400 bytes, the check
rejects only strictly larger files, and a blob of exactly 26214400 bytes
passes the check and reaches the transcription call. -/
theorem C10_boundary_size_passes (env : Env) (f : MediaBlob)
    (h1 : env.uploadedFile = some f) (h2 : f.size = 26214400) :
    MAX_BYTES = 25 * 1024 * 1024 ∧ MAX_BYTES = 26214400 ∧
    callsTranscription env = true ∧ showsSizeError env = false := by
  have hmax : MAX_BYTES = 26214400 := by decide
  have hle : ¬ MAX_BYTES < f.size := by rw [h2, hmax]; omega
  have hr : runPipeline env = afterSizeCheck env f := by
    unfold runPipeline; rw [h1]; exact if_neg hle
  refine ⟨rfl, hmax, ?_, ?_⟩
  · unfold callsTranscription; rw [hr]
    exact afterSizeCheck_calls_transcription env f
  · unfold showsSizeError; rw [hr]
    exact afterSizeCheck_no_sizeError env f

def envC10 : Env :=
  { uploadedFile := some ⟨"a.mp3", 26214400⟩, transcribeOnly := false,
    userInstructions := "", templateFile := TemplateRead.found "T",
    esempiFiles := [], transcription := TrOutcome.ok "x",
    gpt := GptOutcome.ok [] }

theorem C10_witness :
    MAX_BYTES = 25 * 1024 * 1024 ∧ MAX_BYTES = 26214400 ∧
    callsTranscription envC10 = true ∧ showsSizeError envC10 = false :=
  C10_boundary_size_passes envC10 ⟨"a.mp3", 26214400⟩ rfl rfl

/-! ## Claim C6 -/

/-- C6: with the transcription-only checkbox set, the analysis stage is
never invoked (no chat-completion request, no prompt even assembled),
whatever the rest of the environment, including an empty transcript. -/
theorem C6_transcribe_only_never_analyzes (env : Env)
    (h : env.transcribeOnly = true) :
    callsGpt env = false ∧ buildsPrompt env = false := by
  refine ⟨?_, ?_⟩ <;>
  · simp only [callsGpt, buildsPrompt, runPipeline, afterSizeCheck, h]
    repeat' split
    all_goals first
      | exact absurd trivial (by assumption)
      | simp_all [isCallGpt, isBuildPrompt, List.any_append]

def envC6 : Env :=
  { uploadedFile := some ⟨"a.mp3", 5⟩, transcribeOnly := true,
    userInstructions := "x", templateFile := TemplateRead.found "T",
    esempiFiles := [some "e"], transcription := TrOutcome.ok "",
    gpt := GptOutcome.ok [⟨"r"⟩] }

theorem C6_witness : callsGpt envC6 = false ∧ buildsPrompt envC6 = false :=
  C6_transcribe_only_never_analyzes envC6 rfl

/-! ## Claim C5 -/

/-- C5: when the transcription call fails (any vendor error class), the
classified error is surfaced and the run stops: the analysis stage is never
invoked and no prompt is assembled. -/
theorem C5_transcription_error_stops (env : Env) (f : MediaBlob) (ef : Effect)
    (h1 : env.uploadedFile = some f) (h2 : ¬ MAX_BYTES < f.size)
    (h3 : trErrorEffect env.transcription = some ef) :
    ef ∈ runPipeline env ∧ callsGpt env = false ∧ buildsPrompt env = false := by
  have hr : runPipeline env = afterSizeCheck env f := by
    unfold runPipeline; rw [h1]; exact if_neg h2
  cases htr : env.transcription with
  | ok t =>
    rw [htr] at h3
    exact absurd h3 (by simp [trErrorEffect])
  | apiError m =>
    rw [htr] at h3
    simp only [trErrorEffect, Option.some.injEq] at h3
    subst h3
    have ha : afterSizeCheck env f =
        [Effect.showFileDetails f.name f.size, Effect.callTranscription,
         Effect.showError (trApiErrorMsg m)] := by
      unfold afterSizeCheck; rw [htr]; rfl
    refine ⟨?_, ?_, ?_⟩ <;>
      simp [hr, ha, callsGpt, buildsPrompt, isCallGpt, isBuildPrompt]
  | otherError m =>
    rw [htr] at h3
    simp only [trErrorEffect, Option.some.injEq] at h3
    subst h3
    have ha : afterSizeCheck env f =
        [Effect.showFileDetails f.name f.size, Effect.callTranscription,
         Effect.showError (trGenericErrorMsg m)] := by
      unfold afterSizeCheck; rw [htr]; rfl
    refine ⟨?_, ?_, ?_⟩ <;>
      simp [hr, ha, callsGpt, buildsPrompt, isCallGpt, isBuildPrompt]

def envC5 : Env :=
  { uploadedFile := some ⟨"a.mp3", 5⟩, transcribeOnly := false,
    userInstructions := "", templateFile := TemplateRead.found "T",
    esempiFiles := [], transcription := TrOutcome.apiError "rate limit",
    gpt := GptOutcome.ok [⟨"r"⟩] }

theorem C5_witness :
    Effect.showError (trApiErrorMsg "rate limit") ∈ runPipeline envC5 ∧
    callsGpt envC5 = false ∧ buildsPrompt envC5 = false :=
  C5_transcription_error_stops envC5 ⟨"a.mp3", 5⟩
    (Effect.showError (trApiErrorMsg "rate limit")) rfl (by decide) rfl

/-! ## Claim C7 -/

/-- C7: an analysis response with an empty completions list (or no response
object at all) is surfaced through the empty-response error message — a
message distinct from the connection, rate-limit, status and unknown error
classes — and no analysis result is rendered. -/
theorem C7_empty_response_surfaced (env : Env) (f : MediaBlob)
    (raw template : String)
    (h1 : env.uploadedFile = some f) (h2 : ¬ MAX_BYTES < f.size)
    (h3 : env.transcription = TrOutcome.ok raw)
    (h4 : env.transcribeOnly = false)
    (h5 : env.templateFile = TemplateRead.found template)
    (h6 : env.gpt = GptOutcome.ok []) :
    Effect.showError emptyResponseMsg ∈ runPipeline env ∧
    showsResult env = false ∧
    gptPhase (GptOutcome.ok []) = [Effect.showError emptyResponseMsg] ∧
    (∀ m, emptyResponseMsg ≠ connectionErrorMsg m) ∧
    (∀ m, emptyResponseMsg ≠ rateLimitErrorMsg m) ∧
    (∀ code m, emptyResponseMsg ≠ statusErrorMsg code m) ∧
    (∀ m, emptyResponseMsg ≠ unknownErrorMsg m) := by
  have hr : runPipeline env = afterSizeCheck env f := by
    unfold runPipeline; rw [h1]; exact if_neg h2
  have ha : afterSizeCheck env f =
      [Effect.showFileDetails f.name f.size, Effect.callTranscription] ++
        ((if (pyStrip raw).isEmpty then [Effect.showWarning emptyTranscriptMsg]
          else [Effect.showTranscript (pyStrip raw)]) ++
          analysisPhase env (pyStrip raw)) := by
    unfold afterSizeCheck; rw [h3, h4]; rfl
  have hb : analysisPhase env (pyStrip raw) =
      (if (pyStrip raw).isEmpty then [Effect.showWarning emptyTranscriptAnalysisMsg]
       else []) ++
        [Effect.buildPrompt (pyStrip template)
           (full_prompt_for_gpt (pyStrip template) (load_esempi env.esempiFiles)
             env.userInstructions (pyStrip raw)),
         Effect.callGpt
           (full_prompt_for_gpt (pyStrip template) (load_esempi env.esempiFiles)
             env.userInstructions (pyStrip raw)),
         Effect.showError emptyResponseMsg] := by
    unfold analysisPhase gptPhase gpt_request load_main_prompt
    rw [h5, h6]
    simp
  refine ⟨?_, ?_, rfl, fun m => (connectionErrorMsg_ne m).symm,
    fun m => (rateLimitErrorMsg_ne m).symm,
    fun code m => (statusErrorMsg_ne code m).symm,
    fun m => (unknownErrorMsg_ne m).symm⟩
  · rw [hr, ha, hb]
    by_cases ht : (pyStrip raw).isEmpty <;> simp [ht]
  · unfold showsResult
    rw [hr, ha, hb]
    by_cases ht : (pyStrip raw).isEmpty <;>
      simp [ht, isShowResult, List.any_append]

def envC7 : Env :=
  { uploadedFile := some ⟨"a.mp3", 5⟩, transcribeOnly := false,
    userInstructions := "", templateFile := TemplateRead.found "T",
    esempiFiles := [], transcription := TrOutcome.ok "hi",
    gpt := GptOutcome.ok [] }

theorem C7_witness :
    Effect.showError emptyResponseMsg ∈ runPipeline envC7 ∧
    showsResult envC7 = false ∧
    emptyResponseMsg ≠ connectionErrorMsg "x" ∧
    emptyResponseMsg ≠ statusErrorMsg 500 "x" := by
  have h := C7_empty_response_surfaced envC7 ⟨"a.mp3", 5⟩ "hi" "T"
    rfl (by decide) rfl rfl rfl rfl
  exact ⟨h.1, h.2.1, h.2.2.2.1 "x", h.2.2.2.2.2.1 500 "x"⟩

/-! ## Claim C8 -/

/-- C8: if `prompt.txt` is absent, `load_main_prompt` produces the
not-found error and no template, and the run never assembles a prompt nor
calls the analysis service; moreover, in every environment, any assembled
prompt uses exactly the template a successful `load_main_prompt`
returned. -/
theorem C8_missing_template_blocks_analysis (env : Env)
    (h : env.templateFile = TemplateRead.notFound) :
    load_main_prompt env.templateFile =
      ([Effect.showError promptNotFoundMsg], none) ∧
    buildsPrompt env = false ∧ callsGpt env = false ∧
    (∀ e : Env, promptsUseLoadedTemplate e = true) := by
  refine ⟨by rw [h]; rfl, ?_, ?_, ?_⟩
  · simp only [buildsPrompt, runPipeline, afterSizeCheck, analysisPhase,
      load_main_prompt, gptPhase, gpt_request, h]
    repeat' split
    all_goals simp_all [isBuildPrompt, List.any_append]
  · simp only [callsGpt, runPipeline, afterSizeCheck, analysisPhase,
      load_main_prompt, gptPhase, gpt_request, h]
    repeat' split
    all_goals simp_all [isCallGpt, List.any_append]
  · intro e
    cases htf : e.templateFile <;>
    · simp only [promptsUseLoadedTemplate, runPipeline, afterSizeCheck,
        analysisPhase, gptPhase, gpt_request, load_main_prompt, htf]
      repeat' split
      all_goals simp_all [List.all_append]

def envC8 : Env :=
  { uploadedFile := some ⟨"a.mp3", 5⟩, transcribeOnly := false,
    userInstructions := "", templateFile := TemplateRead.notFound,
    esempiFiles := [], transcription := TrOutcome.ok "hi",
    gpt := GptOutcome.ok [⟨"r"⟩] }

theorem C8_witness :
    buildsPrompt envC8 = false ∧ callsGpt envC8 = false ∧
    promptsUseLoadedTemplate envC8 = true := by
  have h := C8_missing_template_blocks_analysis envC8 rfl
  exact ⟨h.2.1, h.2.2.1, h.2.2.2 envC8⟩

/-! ## Claim C9 -/

/-- C9: prompt assembly is a pure function of its four inputs: two
invocations with equal template, examples, instructions and transcript
yield the same string, byte for byte (equal character data). -/
theorem C9_assembly_deterministic (t t' : String) (es es' : List String)
    (i i' r r' : String)
    (h1 : t = t') (h2 : es = es') (h3 : i = i') (h4 : r = r') :
    full_prompt_for_gpt t es i r = full_prompt_for_gpt t' es' i' r' ∧
    (full_prompt_for_gpt t es i r).data =
      (full_prompt_for_gpt t' es' i' r').data := by
  subst h1; subst h2; subst h3; subst h4
  exact ⟨rfl, rfl⟩

theorem C9_witness :
    full_prompt_for_gpt "T" ["e"] "i" "r" = full_prompt_for_gpt "T" ["e"] "i" "r" ∧
    (full_prompt_for_gpt "T" ["e"] "i" "r").data =
      (full_prompt_for_gpt "T" ["e"] "i" "r").data :=
  C9_assembly_deterministic "T" "T" ["e"] ["e"] "i" "i" "r" "r" rfl rfl rfl rfl

/-! ## Claim C3 -/

/-- C3: for the empty example sequence the esempi section is the opening
and closing tag with only whitespace between them and no `<esempio>`
sub-block. -/
theorem C3_empty_examples_block :
    esempi_block [] = "<esempi>" ++ "\n        \n" ++ "</esempi>" ∧
    ("\n        \n").data.all pyIsSpace = true ∧
    countOccs "<esempio>" (esempi_block []) = 0 ∧
    countOccs "</esempio>" (esempi_block []) = 0 ∧
    countOccs "<esempi>" (esempi_block []) = 1 ∧
    countOccs "</esempi>" (esempi_block []) = 1 := by
  refine ⟨by decide, by decide, by decide, by decide, by decide, by decide⟩

/-! ## Claim C2 -/

theorem trascrizione_head_not_space (raw : String) (c : Char)
    (h : (trascrizione_for_gpt_input raw).data.head? = some c) :
    pyIsSpace c = false := by
  unfold trascrizione_for_gpt_input at h
  by_cases he : raw.isEmpty
  · rw [if_pos he] at h; exact Option.noConfusion h
  · rw [if_neg he] at h
    exact stripChars_head _ _ h

theorem trascrizione_getLast_not_space (raw : String) (c : Char)
    (h : (trascrizione_for_gpt_input raw).data.getLast? = some c) :
    pyIsSpace c = false := by
  unfold trascrizione_for_gpt_input at h
  by_cases he : raw.isEmpty
  · rw [if_pos he] at h; exact Option.noConfusion h
  · rw [if_neg he] at h
    exact stripChars_getLast _ _ h

/-- C2: the transcript embedded in the `<input>` block is the raw
transcript with every newline replaced by a space and surrounding
whitespace stripped: it never contains a newline and never starts or ends
with a whitespace character; on the spec's concrete scenario (template
`"Summarize: "`, no examples, empty instructions, transcript
`"hello\nworld"`) the assembled prompt carries the input block
`<input>\n    hello world\n</input>` and no additional-instructions
block. -/
theorem C2_transcript_normalized :
    (∀ raw : String, '\n' ∉ (trascrizione_for_gpt_input raw).data) ∧
    (∀ (raw : String) (c : Char),
        (trascrizione_for_gpt_input raw).data.head? = some c →
          pyIsSpace c = false) ∧
    (∀ (raw : String) (c : Char),
        (trascrizione_for_gpt_input raw).data.getLast? = some c →
          pyIsSpace c = false) ∧
    trascrizione_for_gpt_input "hello\nworld" = "hello world" ∧
    full_prompt_for_gpt "Summarize: " [] "" "hello\nworld" =
      "Summarize: " ++ "\n\n" ++ "<esempi>\n        \n</esempi>" ++ "\n" ++
        "" ++ "\n<input>\n    " ++ "hello world" ++ "\n</input>\n" ∧
    additional_instructions_block "" = "" ∧
    countOccs "<additional_instructions>"
      (full_prompt_for_gpt "Summarize: " [] "" "hello\nworld") = 0 := by
  refine ⟨trascrizione_no_newline, trascrizione_head_not_space,
    trascrizione_getLast_not_space, by decide, by decide, by decide, by decide⟩

theorem C2_witness :
    pyIsSpace 'h' = false ∧
    '\n' ∉ (trascrizione_for_gpt_input "hello\nworld").data := by
  have h := C2_transcript_normalized
  exact ⟨h.2.1 "hello\nworld" 'h' (by decide), h.1 "hello\nworld"⟩

/-! ## Occurrence-counting lemmas

The tags of the prompt contain no newline and do not start with a space,
so occurrences of a tag in the assembled prompt can be counted segment by
segment between the newline separators. -/

theorem occs_cons (p : List Char) (c : Char) (s : List Char) :
    occs p (c :: s) = (if List.isPrefixOf p (c :: s) then 1 else 0) + occs p s := rfl

theorem occs_nil_of_ne (p : List Char) (hp : p ≠ []) : occs p [] = 0 := by
  cases p with
  | nil => exact absurd rfl hp
  | cons a l => rfl

theorem isPrefixOf_eq_true_iff (p l : List Char) :
    List.isPrefixOf p l = true ↔ p <+: l :=
  List.isPrefixOf_iff_prefix

theorem take_isPrefix (n : Nat) (l : List Char) : l.take n <+: l :=
  List.take_prefix n l

theorem head_ne_of_not_mem (p : List Char) (c : Char) (hc : c ∉ p) :
    p.head? ≠ some c := by
  intro h
  cases p with
  | nil => exact Option.noConfusion h
  | cons b l =>
    rw [List.head?_cons] at h
    have hb : b = c := Option.some.inj h
    subst hb
    exact hc (List.mem_cons_self b l)

theorem isPrefixOf_cons_head_ne (p : List Char) (a : Char) (s : List Char)
    (hp : p ≠ []) (h : p.head? ≠ some a) :
    List.isPrefixOf p (a :: s) = false := by
  cases p with
  | nil => exact absurd rfl hp
  | cons b l =>
    rw [List.head?_cons] at h
    have hba : (b == a) = false := by
      rw [beq_eq_false_iff_ne]
      intro hba
      exact h (by rw [hba])
    simp [List.isPrefixOf, hba]

theorem prefix_of_prefix_append_cons {p x y : List Char} {c : Char}
    (hc : c ∉ p) (h : p <+: x ++ c :: y) : p <+: x := by
  have h2 : p = (x ++ c :: y).take p.length :=
    List.prefix_iff_eq_take.mp h
  rw [List.take_append_eq_append_take] at h2
  by_cases hl : p.length ≤ x.length
  · rw [Nat.sub_eq_zero_of_le hl, List.take_zero, List.append_nil] at h2
    rw [h2]
    exact take_isPrefix _ _
  · exfalso
    apply hc
    cases hn : p.length - x.length with
    | zero => omega
    | succ k =>
      rw [hn, List.take_succ_cons] at h2
      rw [h2]
      exact List.mem_append_right _ (List.mem_cons_self c _)

theorem isPrefixOf_append_cons (p x y : List Char) (c : Char) (hc : c ∉ p) :
    List.isPrefixOf p (x ++ c :: y) = List.isPrefixOf p x := by
  cases hb : List.isPrefixOf p x with
  | true =>
    exact (isPrefixOf_eq_true_iff _ _).mpr
      (((isPrefixOf_eq_true_iff _ _).mp hb).trans (List.prefix_append x (c :: y)))
  | false =>
    cases hb2 : List.isPrefixOf p (x ++ c :: y) with
    | true =>
      have h3 := (isPrefixOf_eq_true_iff _ _).mpr
        (prefix_of_prefix_append_cons hc ((isPrefixOf_eq_true_iff _ _).mp hb2))
      rw [hb] at h3
      exact absurd h3 (by decide)
    | false => rfl

theorem occs_append_cons (p : List Char) (hp : p ≠ []) (c : Char) (hc : c ∉ p)
    (x y : List Char) : occs p (x ++ c :: y) = occs p x + occs p y := by
  induction x with
  | nil =>
    rw [List.nil_append, occs_cons,
      isPrefixOf_cons_head_ne p c y hp (head_ne_of_not_mem p c hc),
      occs_nil_of_ne p hp]
    simp
  | cons a x' ih =>
    rw [List.cons_append, occs_cons, ih, occs_cons]
    have hpre : List.isPrefixOf p (a :: (x' ++ c :: y)) =
        List.isPrefixOf p (a :: x') := by
      have h := isPrefixOf_append_cons p (a :: x') y c hc
      rw [List.cons_append] at h
      exact h
    rw [hpre]
    omega

theorem occs_cons_nl (p : List Char) (hp : p ≠ []) (hnl : '\n' ∉ p)
    (y : List Char) : occs p ('\n' :: y) = occs p y := by
  rw [occs_cons,
    isPrefixOf_cons_head_ne p '\n' y hp (head_ne_of_not_mem p '\n' hnl)]
  simp

theorem occs_append_left_of_head (p : List Char) (hp : p ≠ [])
    (w z : List Char) (hw : ∀ a ∈ w, p.head? ≠ some a) :
    occs p (w ++ z) = occs p z := by
  induction w with
  | nil => rw [List.nil_append]
  | cons a w' ih =>
    rw [List.cons_append, occs_cons,
      isPrefixOf_cons_head_ne p a _ hp (hw a (List.mem_cons_self a w')),
      ih (fun b hb => hw b (List.mem_cons_of_mem a hb))]
    simp

/-- Character data of the concatenation of the per-example pieces. -/
def piecesData : List String → List Char
  | [] => []
  | e :: es => (pieceEsempio e).data ++ piecesData es

theorem foldl_append_data (es : List String) (init : String) :
    (es.foldl (fun acc e => acc ++ pieceEsempio e) init).data =
      init.data ++ piecesData es := by
  induction es generalizing init with
  | nil => simp [piecesData]
  | cons e t ih =>
    rw [List.foldl_cons, ih, piecesData, String.data_append, List.append_assoc]

theorem spaces_head_ne (p : List Char) (hsp : p.head? ≠ some ' ') :
    ∀ a ∈ ("            " : String).data, p.head? ≠ some a := by
  intro a ha
  have haeq : a = ' ' := by
    have hall : ∀ a ∈ ("            " : String).data, a = ' ' := by decide
    exact hall a ha
  rw [haeq]
  exact hsp

theorem occs_piecesData (p : List Char) (hp : p ≠ []) (hnl : '\n' ∉ p)
    (hsp : p.head? ≠ some ' ') (es : List String)
    (hes : ∀ e ∈ es, occs p e.data = 0) (z : List Char) :
    occs p (piecesData es ++ z) =
      es.length * (occs p ("        <esempio>" : String).data +
        occs p ("        </esempio>" : String).data) + occs p z := by
  induction es with
  | nil =>
    rw [piecesData, List.nil_append]
    simp
  | cons e t ih =>
    rw [piecesData, List.append_assoc]
    have hshape : (pieceEsempio e).data ++ (piecesData t ++ z) =
        ("        <esempio>" : String).data ++ '\n' ::
          (("            " : String).data ++ (e.data ++ '\n' ::
            (("        </esempio>" : String).data ++ '\n' ::
              (piecesData t ++ z)))) := by
      have hn : (pieceEsempio e).data ++ (piecesData t ++ z) =
          ("        <esempio>\n            " : String).data ++
            (e.data ++ (("\n        </esempio>\n" : String).data ++
              (piecesData t ++ z))) := by
        simp [pieceEsempio, List.append_assoc]
      rw [hn]
      rfl
    rw [hshape]
    rw [occs_append_cons p hp '\n' hnl]
    rw [show ("            " : String).data ++ (e.data ++ '\n' ::
          (("        </esempio>" : String).data ++ '\n' :: (piecesData t ++ z))) =
        (("            " : String).data ++ e.data) ++ '\n' ::
          (("        </esempio>" : String).data ++ '\n' :: (piecesData t ++ z))
      from (List.append_assoc _ _ _).symm]
    rw [occs_append_cons p hp '\n' hnl]
    rw [occs_append_left_of_head p hp _ e.data (spaces_head_ne p hsp)]
    rw [hes e (List.mem_cons_self e t)]
    rw [occs_append_cons p hp '\n' hnl]
    rw [ih (fun x hx => hes x (List.mem_cons_of_mem e hx))]
    rw [List.length_cons]
    ring

theorem occs_esempi_block (p : List Char) (hp : p ≠ []) (hnl : '\n' ∉ p)
    (hsp : p.head? ≠ some ' ') (es : List String)
    (hes : ∀ e ∈ es, occs p e.data = 0) :
    occs p (esempi_block es).data =
      occs p ("<esempi>" : String).data +
        ((if es.isEmpty then occs p ("        " : String).data
          else es.length * (occs p ("        <esempio>" : String).data +
            occs p ("        </esempio>" : String).data)) +
         occs p ("</esempi>" : String).data) := by
  have hd : (esempi_block es).data =
      ("<esempi>" : String).data ++ '\n' ::
        ((esempi_body es).data ++ ("</esempi>" : String).data) := by
    have hn : (esempi_block es).data =
        ("<esempi>\n" : String).data ++
          ((esempi_body es).data ++ ("</esempi>" : String).data) := by
      simp [esempi_block, List.append_assoc]
    rw [hn]
    rfl
  rw [hd, occs_append_cons p hp '\n' hnl]
  by_cases he : es.isEmpty
  · rw [if_pos he]
    have hb : (esempi_body es).data ++ ("</esempi>" : String).data =
        ("        " : String).data ++ '\n' :: ("</esempi>" : String).data := by
      rw [esempi_body, if_pos he]; rfl
    rw [hb, occs_append_cons p hp '\n' hnl]
  · rw [if_neg he]
    have hb : (esempi_body es).data = piecesData es := by
      rw [esempi_body, if_neg he, foldl_append_data]
      rfl
    rw [hb, occs_piecesData p hp hnl hsp es hes]

theorem head_ne_of_all_space (p : List Char) (hsp : p.head? ≠ some ' ')
    (w : List Char) (hall : ∀ a ∈ w, a = ' ') : ∀ a ∈ w, p.head? ≠ some a := by
  intro a ha
  rw [hall a ha]
  exact hsp

theorem occs_additional_block_append (p : List Char) (hp : p ≠ [])
    (hnl : '\n' ∉ p) (instr : String) (z : List Char) :
    occs p ((additional_instructions_block instr).data ++ '\n' :: z) =
      (if (pyStrip instr).isEmpty then 0
       else occs p ("<additional_instructions>" : String).data +
         (occs p (pyStrip instr).data +
          occs p ("</additional_instructions>" : String).data)) + occs p z := by
  by_cases hi : (pyStrip instr).isEmpty
  · rw [if_pos hi]
    have hA : (additional_instructions_block instr).data = [] := by
      rw [additional_instructions_block, if_pos hi]
    rw [hA, List.nil_append, occs_cons_nl p hp hnl]
    simp
  · rw [if_neg hi]
    have hA : (additional_instructions_block instr).data ++ '\n' :: z =
        '\n' :: (("<additional_instructions>" : String).data ++ '\n' ::
          ((pyStrip instr).data ++ '\n' ::
            (("</additional_instructions>" : String).data ++ '\n' :: '\n' :: z))) := by
      have hn2 : (additional_instructions_block instr).data ++ '\n' :: z =
          ("\n<additional_instructions>\n" : String).data ++
            ((pyStrip instr).data ++
              (("\n</additional_instructions>\n" : String).data ++ '\n' :: z)) := by
        rw [additional_instructions_block, if_neg hi]
        simp [List.append_assoc]
      rw [hn2]
      rfl
    rw [hA, occs_cons_nl p hp hnl, occs_append_cons p hp '\n' hnl,
      occs_append_cons p hp '\n' hnl, occs_append_cons p hp '\n' hnl,
      occs_cons_nl p hp hnl]
    omega

theorem occs_full_prompt (p : List Char) (hp : p ≠ []) (hnl : '\n' ∉ p)
    (hsp : p.head? ≠ some ' ') (tmpl : String) (es : List String)
    (instr raw : String) :
    occs p (full_prompt_for_gpt tmpl es instr raw).data =
      occs p tmpl.data +
        (occs p (esempi_block es).data +
          ((if (pyStrip instr).isEmpty then 0
            else occs p ("<additional_instructions>" : String).data +
              (occs p (pyStrip instr).data +
               occs p ("</additional_instructions>" : String).data)) +
           (occs p ("<input>" : String).data +
            (occs p (trascrizione_for_gpt_input raw).data +
             occs p ("</input>" : String).data)))) := by
  have hrest : occs p (("<input>" : String).data ++ '\n' ::
      (("    " : String).data ++ ((trascrizione_for_gpt_input raw).data ++ '\n' ::
        (("</input>" : String).data ++ ['\n'])))) =
      occs p ("<input>" : String).data +
        (occs p (trascrizione_for_gpt_input raw).data +
         occs p ("</input>" : String).data) := by
    rw [occs_append_cons p hp '\n' hnl]
    rw [show ("    " : String).data ++ ((trascrizione_for_gpt_input raw).data ++ '\n' ::
          (("</input>" : String).data ++ ['\n'])) =
        (("    " : String).data ++ (trascrizione_for_gpt_input raw).data) ++ '\n' ::
          (("</input>" : String).data ++ ['\n'])
      from (List.append_assoc _ _ _).symm]
    rw [occs_append_cons p hp '\n' hnl]
    rw [occs_append_left_of_head p hp _ _
      (head_ne_of_all_space p hsp ("    " : String).data (by decide))]
    rw [show (("</input>" : String).data ++ ['\n'] : List Char) =
        ("</input>" : String).data ++ '\n' :: [] from rfl]
    rw [occs_append_cons p hp '\n' hnl, occs_nil_of_ne p hp]
    omega
  have hd : (full_prompt_for_gpt tmpl es instr raw).data =
      tmpl.data ++ '\n' :: ('\n' :: ((esempi_block es).data ++ '\n' ::
        ((additional_instructions_block instr).data ++ '\n' ::
          (("<input>" : String).data ++ '\n' ::
            (("    " : String).data ++ ((trascrizione_for_gpt_input raw).data ++ '\n' ::
              (("</input>" : String).data ++ ['\n']))))))) := by
    have hn : (full_prompt_for_gpt tmpl es instr raw).data =
        tmpl.data ++ (("\n\n" : String).data ++ ((esempi_block es).data ++
          (("\n" : String).data ++ ((additional_instructions_block instr).data ++
            (("\n<input>\n    " : String).data ++
              ((trascrizione_for_gpt_input raw).data ++
                ("\n</input>\n" : String).data)))))) := by
      simp [full_prompt_for_gpt, List.append_assoc]
    rw [hn]
    rfl
  rw [hd, occs_append_cons p hp '\n' hnl, occs_cons_nl p hp hnl,
    occs_append_cons p hp '\n' hnl,
    occs_additional_block_append p hp hnl instr _, hrest]

/-! ## Claim C1 -/

/-- The delimiter tags of the assembled prompt. -/
def promptTags : List String :=
  ["<esempi>", "</esempi>", "<esempio>", "</esempio>",
   "<additional_instructions>", "</additional_instructions>",
   "<input>", "</input>"]

/-- The string contains none of the prompt's delimiter tags. -/
def tagFree (s : String) : Bool :=
  promptTags.all (fun t => countOccs t s == 0)

theorem tagFree_count (s : String) (h : tagFree s = true) (t : String)
    (ht : t ∈ promptTags) : countOccs t s = 0 := by
  rw [tagFree, List.all_eq_true] at h
  simpa using h t ht

/-- Occurrence count of a tag in the full prompt, given its count in each
fixed segment of the template skeleton. -/
theorem countOccs_full_prompt_values (tag tmpl : String) (es : List String)
    (instr raw : String) (a b c d g u v j k : Nat)
    (hp : tag.data ≠ []) (hnl : '\n' ∉ tag.data)
    (hsp : tag.data.head? ≠ some ' ')
    (h1 : countOccs tag tmpl = 0) (h2 : ∀ e ∈ es, countOccs tag e = 0)
    (h3 : countOccs tag (pyStrip instr) = 0)
    (h4 : countOccs tag (trascrizione_for_gpt_input raw) = 0)
    (va : countOccs tag "<esempi>" = a) (vb : countOccs tag "        " = b)
    (vc : countOccs tag "        <esempio>" = c)
    (vd : countOccs tag "        </esempio>" = d)
    (vg : countOccs tag "</esempi>" = g)
    (vu : countOccs tag "<additional_instructions>" = u)
    (vv : countOccs tag "</additional_instructions>" = v)
    (vj : countOccs tag "<input>" = j)
    (vk : countOccs tag "</input>" = k) :
    countOccs tag (full_prompt_for_gpt tmpl es instr raw) =
      a + ((if es.isEmpty then b else es.length * (c + d)) + g) +
        ((if (pyStrip instr).isEmpty then 0 else u + v) + (j + k)) := by
  unfold countOccs at h1 h3 h4 va vb vc vd vg vu vv vj vk ⊢
  rw [occs_full_prompt tag.data hp hnl hsp,
    occs_esempi_block tag.data hp hnl hsp es (fun e he => h2 e he),
    h1, h3, h4, va, vb, vc, vd, vg, vu, vv, vj, vk]
  by_cases hE : es.isEmpty <;> by_cases hA : (pyStrip instr).isEmpty <;>
    simp only [hE, hA, if_true, if_false, Bool.false_eq_true, Bool.true_eq_false] <;>
    ring

/-- C1 as literally quantified fails: a transcript that itself contains an
input block yields an assembled prompt with two `<input>` and two
`</input>` markers, so the prompt does not contain exactly one input
block. -/
theorem C1_counterexample :
    countOccs "<input>" (full_prompt_for_gpt "T" [] "" "<input>x</input>") = 2 ∧
    countOccs "</input>" (full_prompt_for_gpt "T" [] "" "<input>x</input>") = 2 :=
  ⟨by decide, by decide⟩

/-- C1 (amended: the template, the examples, the trimmed instructions and
the normalized transcript must not themselves contain any delimiter tag):
the assembled prompt contains exactly one `<esempi>`...`</esempi>` block,
at most one `<additional_instructions>` block — present if and only if the
instructions are non-empty after trimming — exactly one `<input>` block,
one `<esempio>` sub-block per example, and is the concatenation of
template, blank line, esempi block, optional instructions block and input
block in that fixed order. -/
theorem C1_block_structure (tmpl : String) (es : List String)
    (instr raw : String)
    (h1 : tagFree tmpl = true) (h2 : ∀ e ∈ es, tagFree e = true)
    (h3 : tagFree (pyStrip instr) = true)
    (h4 : tagFree (trascrizione_for_gpt_input raw) = true) :
    countOccs "<esempi>" (full_prompt_for_gpt tmpl es instr raw) = 1 ∧
    countOccs "</esempi>" (full_prompt_for_gpt tmpl es instr raw) = 1 ∧
    countOccs "<input>" (full_prompt_for_gpt tmpl es instr raw) = 1 ∧
    countOccs "</input>" (full_prompt_for_gpt tmpl es instr raw) = 1 ∧
    countOccs "<additional_instructions>" (full_prompt_for_gpt tmpl es instr raw) =
      (if (pyStrip instr).isEmpty then 0 else 1) ∧
    countOccs "</additional_instructions>" (full_prompt_for_gpt tmpl es instr raw) =
      (if (pyStrip instr).isEmpty then 0 else 1) ∧
    countOccs "<esempio>" (full_prompt_for_gpt tmpl es instr raw) = es.length ∧
    countOccs "</esempio>" (full_prompt_for_gpt tmpl es instr raw) = es.length ∧
    full_prompt_for_gpt tmpl es instr raw =
      tmpl ++ "\n\n" ++ esempi_block es ++ "\n" ++
        additional_instructions_block instr ++ "\n<input>\n    " ++
        trascrizione_for_gpt_input raw ++ "\n</input>\n" := by
  refine ⟨?_, ?_, ?_, ?_, ?_, ?_, ?_, ?_, rfl⟩
  · rw [countOccs_full_prompt_values "<esempi>" tmpl es instr raw
      1 0 0 0 0 0 0 0 0 (by decide) (by decide) (by decide)
      (tagFree_count tmpl h1 _ (by decide))
      (fun e he => tagFree_count e (h2 e he) _ (by decide))
      (tagFree_count _ h3 _ (by decide)) (tagFree_count _ h4 _ (by decide))
      (by decide) (by decide) (by decide) (by decide) (by decide)
      (by decide) (by decide) (by decide) (by decide)]
    by_cases hE : es.isEmpty <;> by_cases hA : (pyStrip instr).isEmpty <;>
      simp [hE, hA]
  · rw [countOccs_full_prompt_values "</esempi>" tmpl es instr raw
      0 0 0 0 1 0 0 0 0 (by decide) (by decide) (by decide)
      (tagFree_count tmpl h1 _ (by decide))
      (fun e he => tagFree_count e (h2 e he) _ (by decide))
      (tagFree_count _ h3 _ (by decide)) (tagFree_count _ h4 _ (by decide))
      (by decide) (by decide) (by decide) (by decide) (by decide)
      (by decide) (by decide) (by decide) (by decide)]
    by_cases hE : es.isEmpty <;> by_cases hA : (pyStrip instr).isEmpty <;>
      simp [hE, hA]
  · rw [countOccs_full_prompt_values "<input>" tmpl es instr raw
      0 0 0 0 0 0 0 1 0 (by decide) (by decide) (by decide)
      (tagFree_count tmpl h1 _ (by decide))
      (fun e he => tagFree_count e (h2 e he) _ (by decide))
      (tagFree_count _ h3 _ (by decide)) (tagFree_count _ h4 _ (by decide))
      (by decide) (by decide) (by decide) (by decide) (by decide)
      (by decide) (by decide) (by decide) (by decide)]
    by_cases hE : es.isEmpty <;> by_cases hA : (pyStrip instr).isEmpty <;>
      simp [hE, hA]
  · rw [countOccs_full_prompt_values "</input>" tmpl es instr raw
      0 0 0 0 0 0 0 0 1 (by decide) (by decide) (by decide)
      (tagFree_count tmpl h1 _ (by decide))
      (fun e he => tagFree_count e (h2 e he) _ (by decide))
      (tagFree_count _ h3 _ (by decide)) (tagFree_count _ h4 _ (by decide))
      (by decide) (by decide) (by decide) (by decide) (by decide)
      (by decide) (by decide) (by decide) (by decide)]
    by_cases hE : es.isEmpty <;> by_cases hA : (pyStrip instr).isEmpty <;>
      simp [hE, hA]
  · rw [countOccs_full_prompt_values "<additional_instructions>" tmpl es instr raw
      0 0 0 0 0 1 0 0 0 (by decide) (by decide) (by decide)
      (tagFree_count tmpl h1 _ (by decide))
      (fun e he => tagFree_count e (h2 e he) _ (by decide))
      (tagFree_count _ h3 _ (by decide)) (tagFree_count _ h4 _ (by decide))
      (by decide) (by decide) (by decide) (by decide) (by decide)
      (by decide) (by decide) (by decide) (by decide)]
    by_cases hE : es.isEmpty <;> by_cases hA : (pyStrip instr).isEmpty <;>
      simp [hE, hA]
  · rw [countOccs_full_prompt_values "</additional_instructions>" tmpl es instr raw
      0 0 0 0 0 0 1 0 0 (by decide) (by decide) (by decide)
      (tagFree_count tmpl h1 _ (by decide))
      (fun e he => tagFree_count e (h2 e he) _ (by decide))
      (tagFree_count _ h3 _ (by decide)) (tagFree_count _ h4 _ (by decide))
      (by decide) (by decide) (by decide) (by decide) (by decide)
      (by decide) (by decide) (by decide) (by decide)]
    by_cases hE : es.isEmpty <;> by_cases hA : (pyStrip instr).isEmpty <;>
      simp [hE, hA]
  · rw [countOccs_full_prompt_values "<esempio>" tmpl es instr raw
      0 0 1 0 0 0 0 0 0 (by decide) (by decide) (by decide)
      (tagFree_count tmpl h1 _ (by decide))
      (fun e he => tagFree_count e (h2 e he) _ (by decide))
      (tagFree_count _ h3 _ (by decide)) (tagFree_count _ h4 _ (by decide))
      (by decide) (by decide) (by decide) (by decide) (by decide)
      (by decide) (by decide) (by decide) (by decide)]
    by_cases hE : es.isEmpty <;> by_cases hA : (pyStrip instr).isEmpty <;>
      first
      | (obtain rfl := List.isEmpty_iff.mp hE; simp [hA])
      | simp [hE, hA]
  · rw [countOccs_full_prompt_values "</esempio>" tmpl es instr raw
      0 0 0 1 0 0 0 0 0 (by decide) (by decide) (by decide)
      (tagFree_count tmpl h1 _ (by decide))
      (fun e he => tagFree_count e (h2 e he) _ (by decide))
      (tagFree_count _ h3 _ (by decide)) (tagFree_count _ h4 _ (by decide))
      (by decide) (by decide) (by decide) (by decide) (by decide)
      (by decide) (by decide) (by decide) (by decide)]
    by_cases hE : es.isEmpty <;> by_cases hA : (pyStrip instr).isEmpty <;>
      first
      | (obtain rfl := List.isEmpty_iff.mp hE; simp [hA])
      | simp [hE, hA]

theorem C1_witness :
    countOccs "<esempi>" (full_prompt_for_gpt "T" ["a", "b"] " x " "h\nw") = 1 ∧
    countOccs "</esempi>" (full_prompt_for_gpt "T" ["a", "b"] " x " "h\nw") = 1 ∧
    countOccs "<input>" (full_prompt_for_gpt "T" ["a", "b"] " x " "h\nw") = 1 ∧
    countOccs "</input>" (full_prompt_for_gpt "T" ["a", "b"] " x " "h\nw") = 1 ∧
    countOccs "<additional_instructions>"
      (full_prompt_for_gpt "T" ["a", "b"] " x " "h\nw") =
      (if (pyStrip " x ").isEmpty then 0 else 1) ∧
    countOccs "</additional_instructions>"
      (full_prompt_for_gpt "T" ["a", "b"] " x " "h\nw") =
      (if (pyStrip " x ").isEmpty then 0 else 1) ∧
    countOccs "<esempio>" (full_prompt_for_gpt "T" ["a", "b"] " x " "h\nw") =
      (["a", "b"] : List String).length ∧
    countOccs "</esempio>" (full_prompt_for_gpt "T" ["a", "b"] " x " "h\nw") =
      (["a", "b"] : List String).length ∧
    full_prompt_for_gpt "T" ["a", "b"] " x " "h\nw" =
      "T" ++ "\n\n" ++ esempi_block ["a", "b"] ++ "\n" ++
        additional_instructions_block " x " ++ "\n<input>\n    " ++
        trascrizione_for_gpt_input "h\nw" ++ "\n</input>\n" :=
  C1_block_structure "T" ["a", "b"] " x " "h\nw"
    (by decide) (by decide) (by decide) (by decide)
